import Mathlib

/-!
Verification of the PRMe repository: a shallow embedding of the Github
client, the repository reference, the Git-operation primitives and the
full-pull-request orchestration workflow, together with theorems settling
the specification's claims about them.

The embedding models each remote operation's outcome through an explicit
oracle (the state of the remote Github API), and each workflow execution
additionally returns the list of operation events it performed, so that
ordering and absence-of-call properties can be stated about traces.
-/

namespace PRMe

/-! ## Client and repository construction (NewClient, NewRepo) -/

structure Client where
  token : String
  apiHost : String
  deriving DecidableEq, Repr

/-- Embeds `NewClient` (part_008 lines 43-61): an empty token is rejected
before anything else; otherwise a client bound to the default API host is
returned (options are not modelled; no caller in the workflow passes any). -/
def NewClient (token : String) : Except String Client :=
  if token = "" then
    .error "the Github token cannot be empty, please specify a personal access token"
  else
    .ok { token := token, apiHost := "https://api.github.com" }

structure repo where
  client : Client
  ownerAndName : String
  deriving DecidableEq, Repr

/-- Embeds the `String()` method on `repo` (part_008 lines 113-115); named
`repoString` here because the method's Go name collides with the `String`
type in Lean. -/
def repoString (r : repo) : String := r.ownerAndName

/-- Embeds `NewRepo` (part_008 lines 117-132): reject an empty
owner-and-name, then an owner-and-name without a slash separator, and only
then construct the client (which itself rejects an empty token). -/
def NewRepo (ownerAndName token : String) : Except String repo :=
  if ownerAndName = "" then
    .error "the repository cannot be empty, please specify a repository of the form OwnerName/RepositoryName"
  else if !(ownerAndName.toList.contains '/') then
    .error "the repository must be of the form OwnerName/RepositoryName"
  else
    match NewClient token with
    | .error e => .error ("while constructing client for repository: " ++ e)
    | .ok c => .ok { client := c, ownerAndName := ownerAndName }

/-! ## HTTP-level Git-operation primitives

Each primitive is a single request/response exchange.  The response is
modelled as the HTTP status code plus the decoded JSON body; `none` for a
body stands for a response whose JSON could not be decoded, and for the
decoded value an inner `Option` distinguishes a JSON object that carries
the expected field from one that omits it. -/

/-- Error outcomes of the branch-existence lookup (part_008 lines 225-247). -/
inductive BranchExistsErr where
  | httpStatus (code : Nat)
  | decodeError
  | nameMismatch (returned requested : String)
  deriving DecidableEq, Repr

/-- Embeds `repo.BranchExists` (part_008 lines 225-247): a 404 response is
"branch does not exist"; any other non-200 status is an error; on 200 the
body's name field must equal the requested branch, a mismatch being an
inconsistency error rather than "not found".  `body = none` models a 200
response whose JSON cannot be decoded. -/
def BranchExists (branch : String) (status : Nat) (body : Option String) :
    Except BranchExistsErr Bool :=
  if status = 404 then .ok false
  else if status ≠ 200 then .error (.httpStatus status)
  else
    match body with
    | none => .error .decodeError
    | some name =>
      if name ≠ branch then .error (.nameMismatch name branch)
      else .ok true

/-- Error outcomes of pull-request creation (part_008 lines 266-288 and the
numeric-identifier variant, prme.go lines 513-533). -/
inductive PRCreateErr where
  | httpStatus (code : Nat)
  | decodeError
  | protocolError
  deriving DecidableEq, Repr

/-- Embeds the response handling of `repo.CreatePullRequest`
(part_008 lines 266-288): any status other than 201 is an error; on 201 the
decoded body's `html_url` field is required, and a body that decodes but
omits the field yields the distinct "did not return a pull request HTML
URL" error rather than an empty-string success. -/
def CreatePullRequestResp (status : Nat) (htmlURL : Option (Option String)) :
    Except PRCreateErr String :=
  if status ≠ 201 then .error (.httpStatus status)
  else
    match htmlURL with
    | none => .error .decodeError
    | some none => .error .protocolError
    | some (some url) => .ok url

/-- Embeds the response handling of the numeric-identifier variant of
`CreatePullRequest` (prme.go lines 513-533), whose required field is the
pull-request `Number`. -/
def CreatePullRequestNumResp (status : Nat) (number : Option (Option Int)) :
    Except PRCreateErr Int :=
  if status ≠ 201 then .error (.httpStatus status)
  else
    match number with
    | none => .error .decodeError
    | some none => .error .protocolError
    | some (some n) => .ok n

/-! ## The pull-request creation request body

`CreatePullRequest` builds its JSON request body by direct string
interpolation of the title, body and branch names into a fixed template,
with no escaping (part_008 lines 266-269).  To reason about whether the
resulting bytes form well-formed JSON we also embed a standalone JSON
syntax checker following the RFC 8259 grammar. -/

def quoteChar : Char := Char.ofNat 34

def backslashChar : Char := Char.ofNat 92

def lbraceChar : Char := Char.ofNat 123

def rbraceChar : Char := Char.ofNat 125

def lbrackChar : Char := Char.ofNat 91

def rbrackChar : Char := Char.ofNat 93

/-- Embeds the `PRJSON` interpolation of `repo.CreatePullRequest`
(part_008 line 268): the exact bytes produced by the Sprintf template. -/
def PRJSON (title body baseBranch headBranch : String) : String :=
  "\x7b\"title\":\"" ++ title ++ "\",\"body\":\"" ++ body ++
    "\",\"base\":\"" ++ baseBranch ++ "\",\"head\":\"" ++ headBranch ++ "\"\x7d"

/-- The full HTTP request issued by `repo.CreatePullRequest`
(part_008 lines 266-269 with `MakeAPIRequestWithData`). -/
structure APIRequest where
  method : String
  uri : String
  reqBody : String
  deriving DecidableEq, Repr

def CreatePullRequestRequest (r : repo) (title body baseBranch headBranch : String) :
    APIRequest :=
  { method := "POST"
    uri := "/repos/" ++ repoString r ++ "/pulls"
    reqBody := PRJSON title body baseBranch headBranch }

/-! ### A JSON (RFC 8259) syntax checker -/

def isJSONWs (c : Char) : Bool :=
  c = ' ' || c = '\t' || c = '\n' || c = '\r'

def skipWs : List Char → List Char
  | [] => []
  | c :: cs => if isJSONWs c then skipWs cs else c :: cs

def isJSONDigit (c : Char) : Bool := '0' ≤ c && c ≤ '9'

def isHexDigit (c : Char) : Bool :=
  isJSONDigit c || ('a' ≤ c && c ≤ 'f') || ('A' ≤ c && c ≤ 'F')

def isSimpleEscape (c : Char) : Bool :=
  c = quoteChar || c = backslashChar || c = '/' || c = 'b' || c = 'f' ||
    c = 'n' || c = 'r' || c = 't'

/-- Consume the remainder of a JSON string literal, the opening quote
already consumed; returns the input after the closing quote. -/
def parseStringBody : List Char → Option (List Char)
  | [] => none
  | c :: cs =>
    if c = quoteChar then some cs
    else if c = backslashChar then
      match cs with
      | [] => none
      | e :: cs2 =>
        if isSimpleEscape e then parseStringBody cs2
        else if e = 'u' then
          match cs2 with
          | h1 :: h2 :: h3 :: h4 :: rest =>
            if isHexDigit h1 && isHexDigit h2 && isHexDigit h3 && isHexDigit h4 then
              parseStringBody rest
            else none
          | _ => none
        else none
    else if c.toNat < 32 then none
    else parseStringBody cs

def skipDigits : List Char → List Char
  | [] => []
  | c :: cs => if isJSONDigit c then skipDigits cs else c :: cs

/-- Optional fraction part of a JSON number. -/
def parseFrac : List Char → Option (List Char)
  | [] => some []
  | c :: cs =>
    if c = '.' then
      match cs with
      | [] => none
      | d :: _ => if isJSONDigit d then some (skipDigits cs) else none
    else some (c :: cs)

/-- Optional exponent part of a JSON number. -/
def parseExp : List Char → Option (List Char)
  | [] => some []
  | c :: cs =>
    if c = 'e' || c = 'E' then
      let cs2 := match cs with
                 | [] => ([] : List Char)
                 | s :: rest => if s = '+' || s = '-' then rest else s :: rest
      match cs2 with
      | [] => none
      | d :: _ => if isJSONDigit d then some (skipDigits cs2) else none
    else some (c :: cs)

def parseNumber (l : List Char) : Option (List Char) :=
  let l1 := match l with
            | [] => ([] : List Char)
            | c :: cs => if c = '-' then cs else c :: cs
  match l1 with
  | [] => none
  | c :: cs =>
    if c = '0' then
      match parseFrac cs with
      | none => none
      | some l2 => parseExp l2
    else if isJSONDigit c then
      match parseFrac (skipDigits cs) with
      | none => none
      | some l2 => parseExp l2
    else none

/-- Parsing modes of the JSON checker: a value, the inside of an object or
array, or the member/element lists of an object or array. -/
inductive JMode where
  | value | objectBody | member | arrayBody | element
  deriving DecidableEq, Repr

/-- Fuel-indexed recursive-descent JSON syntax checker; returns the input
remaining after the parsed construct, or `none` on a syntax error. -/
def parseJ : Nat → JMode → List Char → Option (List Char)
  | 0, _, _ => none
  | fuel + 1, .value, l =>
    match skipWs l with
    | [] => none
    | c :: cs =>
      if c = quoteChar then parseStringBody cs
      else if c = lbraceChar then parseJ fuel .objectBody cs
      else if c = lbrackChar then parseJ fuel .arrayBody cs
      else
        match c :: cs with
        | 't' :: 'r' :: 'u' :: 'e' :: rest => some rest
        | 'f' :: 'a' :: 'l' :: 's' :: 'e' :: rest => some rest
        | 'n' :: 'u' :: 'l' :: 'l' :: rest => some rest
        | l2 => parseNumber l2
  | fuel + 1, .objectBody, l =>
    match skipWs l with
    | [] => none
    | c :: cs => if c = rbraceChar then some cs else parseJ fuel .member (c :: cs)
  | fuel + 1, .member, l =>
    match skipWs l with
    | [] => none
    | c :: cs =>
      if c = quoteChar then
        match parseStringBody cs with
        | none => none
        | some afterKey =>
          match skipWs afterKey with
          | ':' :: afterColon =>
            match parseJ fuel .value afterColon with
            | none => none
            | some afterVal =>
              match skipWs afterVal with
              | [] => none
              | ',' :: rest => parseJ fuel .member rest
              | c2 :: rest => if c2 = rbraceChar then some rest else none
          | _ => none
      else none
  | fuel + 1, .arrayBody, l =>
    match skipWs l with
    | [] => none
    | c :: cs => if c = rbrackChar then some cs else parseJ fuel .element (c :: cs)
  | fuel + 1, .element, l =>
    match parseJ fuel .value l with
    | none => none
    | some afterVal =>
      match skipWs afterVal with
      | [] => none
      | ',' :: rest => parseJ fuel .element rest
      | c :: rest => if c = rbrackChar then some rest else none

/-- A string is well-formed JSON when the checker consumes one JSON value
and only whitespace remains. -/
def wellFormedJSON (s : String) : Bool :=
  match parseJ (3 * s.length + 8) .value s.toList with
  | some rest => (skipWs rest).isEmpty
  | none => false

/-! ## The orchestration workflows

Remote state and remote-operation outcomes are supplied by an `Oracle`;
each workflow execution returns its result together with the list of
operation events it performed, in order, so that ordering and
absence-of-call claims can be stated about the trace. -/

/-- Outcomes of every remote or git operation, as determined by the state
of the remote repository and the transport. -/
structure Oracle where
  repoExists : Except String Bool
  branchExists : String → Except String Bool
  createEmptyTreeCommit : Except String String
  createBranch : String → String → Except String Unit
  mergeBranch : String → String → Except String Unit
  createPullRequestURL : String → String → String → String → Except String String
  createPullRequestNum : String → String → String → String → Except String Int
  mkdirTemp : Except String Unit
  gitClone : String → Except String Unit
  gitCommitTree : Except String String
  gitBranch : String → String → Except String Unit
  gitPush : List String → Except String Unit

/-- One performed operation, with its arguments and outcome.  The
`deleteBranch`/`closePullRequest` constructors exist so that the claim that
the workflows never perform them is expressible. -/
inductive Event where
  | repoExists (result : Except String Bool)
  | branchExists (branch : String) (result : Except String Bool)
  | createEmptyTreeCommit (result : Except String String)
  | createBranch (branch sha : String) (result : Except String Unit)
  | mergeBranch (base head : String) (result : Except String Unit)
  | createPullRequestURL (title body base head : String) (result : Except String String)
  | createPullRequestNum (title body base head : String) (result : Except String Int)
  | deleteBranch (branch : String)
  | closePullRequest (number : Int)
  | gitClone (repoName : String) (result : Except String Unit)
  | gitCommitTree (result : Except String String)
  | gitBranch (branch sha : String) (result : Except String Unit)
  | gitPush (branches : List String) (result : Except String Unit)
  deriving Repr

/-- An empty-tree-commit creation, through the API or the git CLI. -/
def Event.isEmptyTreeCommitCreation : Event → Bool
  | .createEmptyTreeCommit _ => true
  | .gitCommitTree _ => true
  | _ => false

/-- A branch creation, through the API or the git CLI. -/
def Event.isBranchCreation : Event → Bool
  | .createBranch _ _ _ => true
  | .gitBranch _ _ _ => true
  | _ => false

/-- A cleanup/compensation primitive: branch deletion or pull-request
closing. -/
def Event.isCleanup : Event → Bool
  | .deleteBranch _ => true
  | .closePullRequest _ => true
  | _ => false

/-- A merge or a pull-request creation. -/
def Event.isMergeOrPR : Event → Bool
  | .mergeBranch _ _ _ => true
  | .createPullRequestURL _ _ _ _ _ => true
  | .createPullRequestNum _ _ _ _ _ => true
  | _ => false

/-- The shas of the successful API empty-tree-commit creations of a trace. -/
def commitCreations (tr : List Event) : List String :=
  tr.filterMap fun e => match e with
    | .createEmptyTreeCommit (.ok sha) => some sha
    | _ => none

/-- The (branch, sha) pairs of the successful API branch creations of a
trace, in order. -/
def branchCreations (tr : List Event) : List (String × String) :=
  tr.filterMap fun e => match e with
    | .createBranch b sha (.ok _) => some (b, sha)
    | _ => none

/-- The shas of the successful `git commit-tree` invocations of a trace. -/
def gitCommitCreations (tr : List Event) : List String :=
  tr.filterMap fun e => match e with
    | .gitCommitTree (.ok sha) => some sha
    | _ => none

/-- The (branch, sha) pairs of the successful `git branch` invocations of a
trace, in order. -/
def gitBranchCreations (tr : List Event) : List (String × String) :=
  tr.filterMap fun e => match e with
    | .gitBranch b sha (.ok _) => some (b, sha)
    | _ => none

/-- The merge and pull-request-creation events of a trace, in order. -/
def mergePRProjection (tr : List Event) : List Event :=
  tr.filter Event.isMergeOrPR

/-- The branch-to-commit map of the remote repository produced by replaying
the API branch mutations of a trace (newest binding first). -/
def applyEvent (m : List (String × String)) : Event → List (String × String)
  | .createBranch b sha (.ok _) => (b, sha) :: m
  | .deleteBranch b => m.filter fun p => p.1 ≠ b
  | _ => m

def runBranches (tr : List Event) : List (String × String) :=
  tr.foldl applyEvent []

/-! ### `CreateOrphanBranches` (part_008 lines 184-223) -/

/-- The `git branch` loop of `CreateOrphanBranches` (part_008
lines 211-216): point each requested branch at the empty-tree commit,
stopping at the first failure. -/
def CreateOrphanBranchesLoop (ω : Oracle) (sha : String) :
    List String → Except String Unit × List Event
  | [] => (.ok (), [])
  | n :: rest =>
    match ω.gitBranch n sha with
    | .error e => (.error e, [.gitBranch n sha (.error e)])
    | .ok _ =>
      ((CreateOrphanBranchesLoop ω sha rest).1,
        .gitBranch n sha (.ok ()) :: (CreateOrphanBranchesLoop ω sha rest).2)

/-- Embeds `repo.CreateOrphanBranches` (part_008 lines 184-223): validate
the branch-name list, clone the repository into a temporary directory,
create one empty-tree commit with `git commit-tree`, point every requested
branch at it, and push all of the branches at once. -/
def repo.CreateOrphanBranches (ω : Oracle) (r : repo) (branchNames : List String) :
    Except String Unit × List Event :=
  if branchNames.isEmpty then (.error "please supply at least one branch name", [])
  else if branchNames.contains "" then (.error "branchName cannot be empty", [])
  else
    match ω.mkdirTemp with
    | .error e => (.error e, [])
    | .ok _ =>
      match ω.gitClone (repoString r) with
      | .error e => (.error e, [.gitClone (repoString r) (.error e)])
      | .ok _ =>
        match ω.gitCommitTree with
        | .error e =>
          (.error e, [.gitClone (repoString r) (.ok ()), .gitCommitTree (.error e)])
        | .ok sha =>
          if sha = "" then
            (.error "empty commit sha returned after creating empty-tree commit",
              [.gitClone (repoString r) (.ok ()), .gitCommitTree (.ok sha)])
          else
            match CreateOrphanBranchesLoop ω sha branchNames with
            | (.error e, trL) =>
              (.error e,
                [.gitClone (repoString r) (.ok ()), .gitCommitTree (.ok sha)] ++ trL)
            | (.ok _, trL) =>
              match ω.gitPush branchNames with
              | .error e =>
                (.error e,
                  [.gitClone (repoString r) (.ok ()), .gitCommitTree (.ok sha)] ++ trL ++
                    [.gitPush branchNames (.error e)])
              | .ok _ =>
                (.ok (),
                  [.gitClone (repoString r) (.ok ()), .gitCommitTree (.ok sha)] ++ trL ++
                    [.gitPush branchNames (.ok ())])

/-! ### The configuration-driven workflow (part_008 lines 290-440) -/

/-- The full set of inputs of the orchestrator (part_008 lines 290-292). -/
structure FullPullRequestCreator where
  Token : String
  Repo : String
  FullRepoBranch : String
  Title : String
  Body : String
  BaseBranch : String
  HeadBranch : String
  deriving DecidableEq, Repr

/-- Error outcomes of `FullPullRequestCreator.Create`, one constructor per
error site of part_008 lines 378-440. -/
inductive CreateErr where
  | emptyFullRepoBranch
  | emptyBaseBranch
  | emptyHeadBranch
  | emptyTitle
  | emptyBody
  | newRepoError (msg : String)
  | repoExistsError (msg : String)
  | repoNotFound
  | fullRepoBranchExistsError (msg : String)
  | fullRepoBranchMissing
  | baseBranchExistsError (msg : String)
  | baseBranchAlreadyExists
  | headBranchExistsError (msg : String)
  | headBranchAlreadyExists
  | createOrphanBranchesError (msg : String)
  | mergeBranchError (msg : String)
  | createPullRequestError (msg : String)
  deriving DecidableEq, Repr

/-- A configuration error: bad input, raised before any operation runs
(the empty-field validations and the `NewRepo` rejections). -/
def CreateErr.isConfigError : CreateErr → Bool
  | .emptyFullRepoBranch | .emptyBaseBranch | .emptyHeadBranch
  | .emptyTitle | .emptyBody | .newRepoError _ => true
  | _ => false

/-- A precondition error: the remote repository/branch state does not
satisfy a required invariant before mutation begins. -/
def CreateErr.isPreconditionError : CreateErr → Bool
  | .repoNotFound | .fullRepoBranchMissing
  | .baseBranchAlreadyExists | .headBranchAlreadyExists => true
  | _ => false

/-- Embeds `FullPullRequestCreator.Create` (part_008 lines 378-440):
validate every configuration field, construct the repository reference,
verify the repository is reachable, verify the source branch exists and the
base/head branches do not, create the orphan branches, merge the source
branch into the head branch, and open the pull request. -/
def FullPullRequestCreator.Create (ω : Oracle) (f : FullPullRequestCreator) :
    Except CreateErr String × List Event :=
  if f.FullRepoBranch = "" then (.error .emptyFullRepoBranch, [])
  else if f.BaseBranch = "" then (.error .emptyBaseBranch, [])
  else if f.HeadBranch = "" then (.error .emptyHeadBranch, [])
  else if f.Title = "" then (.error .emptyTitle, [])
  else if f.Body = "" then (.error .emptyBody, [])
  else
    match NewRepo f.Repo f.Token with
    | .error e => (.error (.newRepoError e), [])
    | .ok r =>
      match ω.repoExists with
      | .error e => (.error (.repoExistsError e), [.repoExists (.error e)])
      | .ok false => (.error .repoNotFound, [.repoExists (.ok false)])
      | .ok true =>
        match ω.branchExists f.FullRepoBranch with
        | .error e =>
          (.error (.fullRepoBranchExistsError e),
            [.repoExists (.ok true), .branchExists f.FullRepoBranch (.error e)])
        | .ok false =>
          (.error .fullRepoBranchMissing,
            [.repoExists (.ok true), .branchExists f.FullRepoBranch (.ok false)])
        | .ok true =>
          match ω.branchExists f.BaseBranch with
          | .error e =>
            (.error (.baseBranchExistsError e),
              [.repoExists (.ok true), .branchExists f.FullRepoBranch (.ok true),
                .branchExists f.BaseBranch (.error e)])
          | .ok true =>
            (.error .baseBranchAlreadyExists,
              [.repoExists (.ok true), .branchExists f.FullRepoBranch (.ok true),
                .branchExists f.BaseBranch (.ok true)])
          | .ok false =>
            match ω.branchExists f.HeadBranch with
            | .error e =>
              (.error (.headBranchExistsError e),
                [.repoExists (.ok true), .branchExists f.FullRepoBranch (.ok true),
                  .branchExists f.BaseBranch (.ok false),
                  .branchExists f.HeadBranch (.error e)])
            | .ok true =>
              (.error .headBranchAlreadyExists,
                [.repoExists (.ok true), .branchExists f.FullRepoBranch (.ok true),
                  .branchExists f.BaseBranch (.ok false),
                  .branchExists f.HeadBranch (.ok true)])
            | .ok false =>
              match r.CreateOrphanBranches ω [f.BaseBranch, f.HeadBranch] with
              | (.error e, trO) =>
                (.error (.createOrphanBranchesError e),
                  [Event.repoExists (.ok true),
                    .branchExists f.FullRepoBranch (.ok true),
                    .branchExists f.BaseBranch (.ok false),
                    .branchExists f.HeadBranch (.ok false)] ++ trO)
              | (.ok _, trO) =>
                match ω.mergeBranch f.HeadBranch f.FullRepoBranch with
                | .error e =>
                  (.error (.mergeBranchError e),
                    [Event.repoExists (.ok true),
                      .branchExists f.FullRepoBranch (.ok true),
                      .branchExists f.BaseBranch (.ok false),
                      .branchExists f.HeadBranch (.ok false)] ++ trO ++
                      [.mergeBranch f.HeadBranch f.FullRepoBranch (.error e)])
                | .ok _ =>
                  match ω.createPullRequestURL f.Title f.Body f.BaseBranch f.HeadBranch with
                  | .error e =>
                    (.error (.createPullRequestError e),
                      [Event.repoExists (.ok true),
                        .branchExists f.FullRepoBranch (.ok true),
                        .branchExists f.BaseBranch (.ok false),
                        .branchExists f.HeadBranch (.ok false)] ++ trO ++
                        [.mergeBranch f.HeadBranch f.FullRepoBranch (.ok ()),
                          .createPullRequestURL f.Title f.Body f.BaseBranch f.HeadBranch
                            (.error e)])
                  | .ok url =>
                    (.ok url,
                      [Event.repoExists (.ok true),
                        .branchExists f.FullRepoBranch (.ok true),
                        .branchExists f.BaseBranch (.ok false),
                        .branchExists f.HeadBranch (.ok false)] ++ trO ++
                        [.mergeBranch f.HeadBranch f.FullRepoBranch (.ok ()),
                          .createPullRequestURL f.Title f.Body f.BaseBranch f.HeadBranch
                            (.ok url)])

/-- The configuration is fully valid: every field of the orchestrator's
input is non-empty and the repository is of the OwnerName/RepositoryName
form, so that validation and `NewRepo` succeed. -/
def FullPullRequestCreator.configOK (f : FullPullRequestCreator) : Prop :=
  f.FullRepoBranch ≠ "" ∧ f.BaseBranch ≠ "" ∧ f.HeadBranch ≠ "" ∧
    f.Title ≠ "" ∧ f.Body ≠ "" ∧ f.Repo ≠ "" ∧ '/' ∈ f.Repo.toList ∧ f.Token ≠ ""

/-! ### The API-only workflow variant (prme.go lines 535-579) -/

/-- Error outcomes of `repo.CreateFullPullRequest`, one constructor per
error site of prme.go lines 535-579. -/
inductive FullPRErr where
  | fullRepoBranchExistsError (msg : String)
  | fullRepoBranchMissing
  | baseBranchExistsError (msg : String)
  | baseBranchAlreadyExists
  | headBranchExistsError (msg : String)
  | headBranchAlreadyExists
  | emptyTreeCommitError (msg : String)
  | createBaseBranchError (msg : String)
  | createHeadBranchError (msg : String)
  | mergeBranchError (msg : String)
  | createPullRequestError (msg : String)
  deriving DecidableEq, Repr

/-- A precondition error of the API-only workflow. -/
def FullPRErr.isPreconditionError : FullPRErr → Bool
  | .fullRepoBranchMissing | .baseBranchAlreadyExists | .headBranchAlreadyExists => true
  | _ => false

/-- Embeds `repo.CreateFullPullRequest` (prme.go lines 535-579): verify the
source branch exists and the base/head branches do not, create one
empty-tree commit, point both new branches at it, merge the source branch
into the head branch, and open the pull request, returning its number. -/
def repo.CreateFullPullRequest (ω : Oracle) (_r : repo)
    (fullRepoBranch PRTitle PRBody PRBaseBranch PRHeadBranch : String) :
    Except FullPRErr Int × List Event :=
  match ω.branchExists fullRepoBranch with
  | .error e =>
    (.error (.fullRepoBranchExistsError e), [.branchExists fullRepoBranch (.error e)])
  | .ok false =>
    (.error .fullRepoBranchMissing, [.branchExists fullRepoBranch (.ok false)])
  | .ok true =>
    match ω.branchExists PRBaseBranch with
    | .error e =>
      (.error (.baseBranchExistsError e),
        [.branchExists fullRepoBranch (.ok true), .branchExists PRBaseBranch (.error e)])
    | .ok true =>
      (.error .baseBranchAlreadyExists,
        [.branchExists fullRepoBranch (.ok true), .branchExists PRBaseBranch (.ok true)])
    | .ok false =>
      match ω.branchExists PRHeadBranch with
      | .error e =>
        (.error (.headBranchExistsError e),
          [.branchExists fullRepoBranch (.ok true), .branchExists PRBaseBranch (.ok false),
            .branchExists PRHeadBranch (.error e)])
      | .ok true =>
        (.error .headBranchAlreadyExists,
          [.branchExists fullRepoBranch (.ok true), .branchExists PRBaseBranch (.ok false),
            .branchExists PRHeadBranch (.ok true)])
      | .ok false =>
        match ω.createEmptyTreeCommit with
        | .error e =>
          (.error (.emptyTreeCommitError e),
            [Event.branchExists fullRepoBranch (.ok true),
              .branchExists PRBaseBranch (.ok false),
              .branchExists PRHeadBranch (.ok false)] ++ [.createEmptyTreeCommit (.error e)])
        | .ok emptyCommit =>
          match ω.createBranch PRBaseBranch emptyCommit with
          | .error e =>
            (.error (.createBaseBranchError e),
              [Event.branchExists fullRepoBranch (.ok true),
                .branchExists PRBaseBranch (.ok false),
                .branchExists PRHeadBranch (.ok false)] ++ [.createEmptyTreeCommit (.ok emptyCommit),
                .createBranch PRBaseBranch emptyCommit (.error e)])
          | .ok _ =>
            match ω.createBranch PRHeadBranch emptyCommit with
            | .error e =>
              (.error (.createHeadBranchError e),
                [Event.branchExists fullRepoBranch (.ok true),
                .branchExists PRBaseBranch (.ok false),
                .branchExists PRHeadBranch (.ok false)] ++ [.createEmptyTreeCommit (.ok emptyCommit),
                  .createBranch PRBaseBranch emptyCommit (.ok ()),
                  .createBranch PRHeadBranch emptyCommit (.error e)])
            | .ok _ =>
              match ω.mergeBranch PRHeadBranch fullRepoBranch with
              | .error e =>
                (.error (.mergeBranchError e),
                  [Event.branchExists fullRepoBranch (.ok true),
                .branchExists PRBaseBranch (.ok false),
                .branchExists PRHeadBranch (.ok false)] ++ [.createEmptyTreeCommit (.ok emptyCommit),
                    .createBranch PRBaseBranch emptyCommit (.ok ()),
                    .createBranch PRHeadBranch emptyCommit (.ok ()),
                    .mergeBranch PRHeadBranch fullRepoBranch (.error e)])
              | .ok _ =>
                match ω.createPullRequestNum PRTitle PRBody PRBaseBranch PRHeadBranch with
                | .error e =>
                  (.error (.createPullRequestError e),
                    [Event.branchExists fullRepoBranch (.ok true),
                .branchExists PRBaseBranch (.ok false),
                .branchExists PRHeadBranch (.ok false)] ++ [.createEmptyTreeCommit (.ok emptyCommit),
                      .createBranch PRBaseBranch emptyCommit (.ok ()),
                      .createBranch PRHeadBranch emptyCommit (.ok ()),
                      .mergeBranch PRHeadBranch fullRepoBranch (.ok ()),
                      .createPullRequestNum PRTitle PRBody PRBaseBranch PRHeadBranch
                        (.error e)])
                | .ok n =>
                  (.ok n,
                    [Event.branchExists fullRepoBranch (.ok true),
                .branchExists PRBaseBranch (.ok false),
                .branchExists PRHeadBranch (.ok false)] ++ [.createEmptyTreeCommit (.ok emptyCommit),
                      .createBranch PRBaseBranch emptyCommit (.ok ()),
                      .createBranch PRHeadBranch emptyCommit (.ok ()),
                      .mergeBranch PRHeadBranch fullRepoBranch (.ok ()),
                      .createPullRequestNum PRTitle PRBody PRBaseBranch PRHeadBranch
                        (.ok n)])

/-! ### A concrete remote state, for witness executions

A repository `o/r` whose only branch is `main`, in which every creation,
merge and push succeeds — the concrete scenario of the specification's
testable-properties section. -/

def testOracle : Oracle where
  repoExists := .ok true
  branchExists := fun b => if b = "main" then .ok true else .ok false
  createEmptyTreeCommit := .ok "828e2e0952cc78cf7562b8a36d372ae2ea31f266"
  createBranch := fun _ _ => .ok ()
  mergeBranch := fun _ _ => .ok ()
  createPullRequestURL := fun _ _ _ _ => .ok "https://github.com/o/r/pull/7"
  createPullRequestNum := fun _ _ _ _ => .ok 7
  mkdirTemp := .ok ()
  gitClone := fun _ => .ok ()
  gitCommitTree := .ok "828e2e0952cc78cf7562b8a36d372ae2ea31f266"
  gitBranch := fun _ _ => .ok ()
  gitPush := fun _ => .ok ()

/-- The concrete repository reference bound to `o/r`. -/
def testRepo : repo :=
  { client := { token := "tok", apiHost := "https://api.github.com" }, ownerAndName := "o/r" }

/-- A remote state like `testOracle` except that the branch `rev-base`
already exists. -/
def testOracleBaseTaken : Oracle :=
  { testOracle with
    branchExists := fun b =>
      if b = "rev-base" then .ok true
      else if b = "main" then .ok true else .ok false }

/-- A fully-populated concrete workflow configuration against `o/r`. -/
def testCreator : FullPullRequestCreator :=
  { Token := "tok", Repo := "o/r", FullRepoBranch := "main", Title := "Full Review"
    Body := "review body", BaseBranch := "rev-base", HeadBranch := "rev-head" }

/-! ## Claims about the primitives -/

/-- C8: for every branch name, `BranchExists` returns `false` exactly when
the API responds 404; returns `true` exactly when the API responds 200 with
a body whose name field equals the requested branch name; and returns an
error (not `false`) for every other status code and for a 200 response
whose reported name differs from the requested name. -/
theorem claim_C8 (branch : String) (status : Nat) (body : Option String) :
    (BranchExists branch status body = .ok false ↔ status = 404) ∧
    (BranchExists branch status body = .ok true ↔
      status = 200 ∧ body = some branch) ∧
    (status ≠ 404 → status ≠ 200 →
      BranchExists branch status body = .error (.httpStatus status)) ∧
    (∀ name, status = 200 → body = some name → name ≠ branch →
      BranchExists branch status body = .error (.nameMismatch name branch)) := by
  unfold BranchExists
  rcases body with _ | name <;>
    by_cases h404 : status = 404 <;>
    by_cases h200 : status = 200 <;>
    simp_all <;>
    by_cases hname : name = branch <;>
    simp_all

/-- Witness for C8: concrete instances of each clause. -/
theorem claim_C8_witness :
    BranchExists "main" 404 none = .ok false ∧
    BranchExists "main" 200 (some "main") = .ok true ∧
    BranchExists "main" 500 none = .error (.httpStatus 500) ∧
    BranchExists "main" 200 (some "master") = .error (.nameMismatch "master" "main") := by
  refine ⟨(claim_C8 "main" 404 none).1.mpr rfl,
    (claim_C8 "main" 200 (some "main")).2.1.mpr ⟨rfl, rfl⟩,
    (claim_C8 "main" 500 none).2.2.1 (by decide) (by decide),
    (claim_C8 "main" 200 (some "master")).2.2.2 "master" rfl rfl (by decide)⟩

/-- C6: a pull-request creation response with HTTP status 201 whose decoded
body lacks the expected URL (respectively numeric-identifier) field yields
the distinct protocol error, never a success carrying the zero value. -/
theorem claim_C6 :
    CreatePullRequestResp 201 (some none) = .error .protocolError ∧
    (∀ url : String, CreatePullRequestResp 201 (some none) ≠ .ok url) ∧
    CreatePullRequestNumResp 201 (some none) = .error .protocolError ∧
    (∀ n : Int, CreatePullRequestNumResp 201 (some none) ≠ .ok n) ∧
    PRCreateErr.protocolError ≠ .decodeError ∧
    (∀ code : Nat, PRCreateErr.protocolError ≠ .httpStatus code) := by
  refine ⟨rfl, fun url h => ?_, rfl, fun n h => ?_, by decide, fun code h => ?_⟩
  · simp [CreatePullRequestResp] at h
  · simp [CreatePullRequestNumResp] at h
  · exact PRCreateErr.noConfusion h

/-- C9 (amended): repository-reference construction rejects an empty
owner-and-name, then an owner-and-name without a slash, with errors that do
not depend on the token (hence before any client construction); for every
other owner-and-name string it returns a reference whose string form equals
the input, provided the token is non-empty. -/
theorem claim_C9 (ownerAndName token : String) :
    (ownerAndName = "" →
      NewRepo ownerAndName token =
        .error "the repository cannot be empty, please specify a repository of the form OwnerName/RepositoryName") ∧
    (ownerAndName ≠ "" → '/' ∉ ownerAndName.toList →
      NewRepo ownerAndName token =
        .error "the repository must be of the form OwnerName/RepositoryName") ∧
    (ownerAndName ≠ "" → '/' ∈ ownerAndName.toList → token ≠ "" →
      ∃ r : repo, NewRepo ownerAndName token = .ok r ∧ repoString r = ownerAndName) := by
  refine ⟨fun h => by simp [NewRepo, h],
    fun h1 h2 => by simp [NewRepo, h1]; exact fun hm => absurd hm h2,
    fun h1 h2 h3 => ?_⟩
  exact ⟨{ client := { token := token, apiHost := "https://api.github.com" },
           ownerAndName := ownerAndName },
    by simp [NewRepo, h1, NewClient, h3]; exact h2, rfl⟩

/-- Witness for C9: the two rejection clauses and the success clause at
concrete inputs. -/
theorem claim_C9_witness :
    NewRepo "" "tok" =
      .error "the repository cannot be empty, please specify a repository of the form OwnerName/RepositoryName" ∧
    NewRepo "noslash" "tok" =
      .error "the repository must be of the form OwnerName/RepositoryName" ∧
    ∃ r : repo, NewRepo "ivanfetch/prme" "tok" = .ok r ∧ repoString r = "ivanfetch/prme" := by
  refine ⟨(claim_C9 "" "tok").1 rfl,
    (claim_C9 "noslash" "tok").2.1 (by decide) (by decide),
    (claim_C9 "ivanfetch/prme" "tok").2.2 (by decide) (by decide) (by decide)⟩

/-- C9 counterexample to the original claim: "ivanfetch/prme" is a/b-shaped
(non-empty, contains a slash), yet with an empty token `NewRepo` returns an
error instead of a reference, because client construction fails. -/
theorem claim_C9_counterexample :
    NewRepo "a/b" "" =
      .error "while constructing client for repository: the Github token cannot be empty, please specify a personal access token" := by
  rfl

/-- C10 (amended): the pull-request creation request body is the direct
unescaped interpolation of title, body and branch names into the fixed JSON
template, and some inputs containing a double-quote character (for example
a lone `"` as the title) make the body ill-formed JSON — though not every
quote-containing input does. -/
theorem claim_C10 :
    (∀ (r : repo) (title body baseBranch headBranch : String),
      (CreatePullRequestRequest r title body baseBranch headBranch).reqBody =
        "\x7b\"title\":\"" ++ title ++ "\",\"body\":\"" ++ body ++
          "\",\"base\":\"" ++ baseBranch ++ "\",\"head\":\"" ++ headBranch ++ "\"\x7d") ∧
    ("\"".toList.contains quoteChar = true ∧
      wellFormedJSON (PRJSON "\"" "review body" "prme-full-review" "prme-full-content")
        = false) := by
  exact ⟨fun r t b ba h => rfl, by decide, by rfl⟩

/-- C10 counterexample to the original universal: the title `a\"b` contains
a double-quote character, yet the interpolated request body is well-formed
JSON, because its quote happens to sit behind a backslash and so reads as a
JSON string escape. -/
theorem claim_C10_counterexample :
    "a\\\"b".toList.contains quoteChar = true ∧
    wellFormedJSON (PRJSON "a\\\"b" "review body" "prme-full-review" "prme-full-content")
      = true := by
  exact ⟨by decide, by rfl⟩


/-! ## Claims about the orchestration workflows -/

/-- A successful `NewRepo` implies the owner-and-name and the token were
non-empty. -/
theorem NewRepo_ok_nonempty {o t : String} {r : repo} (h : NewRepo o t = .ok r) :
    o ≠ "" ∧ t ≠ "" := by
  unfold NewRepo at h
  split at h
  · exact absurd h (by simp)
  · split at h
    · exact absurd h (by simp)
    · rename_i ho _
      refine ⟨ho, fun ht => ?_⟩
      rw [ht] at h
      simp [NewClient] at h

/-- The function `NewRepo` succeeds, with exactly this reference, on a well-formed
input. -/
theorem NewRepo_ok_of {o t : String} (ho : o ≠ "") (hc : '/' ∈ o.toList) (ht : t ≠ "") :
    NewRepo o t =
      .ok { client := { token := t, apiHost := "https://api.github.com" },
            ownerAndName := o } := by
  unfold NewRepo NewClient
  rw [if_neg ho, if_neg (by simp; exact hc), if_neg ht]

/-- C1: for every workflow configuration in which any required field
(source branch, base branch, head branch, title, body, repository, token)
is the empty string, `FullPullRequestCreator.Create` returns a
configuration error and its trace is empty — no network or git operation is
performed at all. -/
theorem claim_C1 (ω : Oracle) (f : FullPullRequestCreator)
    (h : f.FullRepoBranch = "" ∨ f.BaseBranch = "" ∨ f.HeadBranch = "" ∨
      f.Title = "" ∨ f.Body = "" ∨ f.Repo = "" ∨ f.Token = "") :
    (∃ e, (f.Create ω).1 = .error e ∧ e.isConfigError = true) ∧ (f.Create ω).2 = [] := by
  unfold FullPullRequestCreator.Create
  by_cases h1 : f.FullRepoBranch = ""
  · rw [if_pos h1]; exact ⟨⟨.emptyFullRepoBranch, rfl, rfl⟩, rfl⟩
  rw [if_neg h1]
  by_cases h2 : f.BaseBranch = ""
  · rw [if_pos h2]; exact ⟨⟨.emptyBaseBranch, rfl, rfl⟩, rfl⟩
  rw [if_neg h2]
  by_cases h3 : f.HeadBranch = ""
  · rw [if_pos h3]; exact ⟨⟨.emptyHeadBranch, rfl, rfl⟩, rfl⟩
  rw [if_neg h3]
  by_cases h4 : f.Title = ""
  · rw [if_pos h4]; exact ⟨⟨.emptyTitle, rfl, rfl⟩, rfl⟩
  rw [if_neg h4]
  by_cases h5 : f.Body = ""
  · rw [if_pos h5]; exact ⟨⟨.emptyBody, rfl, rfl⟩, rfl⟩
  rw [if_neg h5]
  rcases hnr : NewRepo f.Repo f.Token with e | r
  · exact ⟨⟨.newRepoError e, rfl, rfl⟩, rfl⟩
  · exfalso
    obtain ⟨ho, ht⟩ := NewRepo_ok_nonempty hnr
    rcases h with h | h | h | h | h | h | h
    exacts [h1 h, h2 h, h3 h, h4 h, h5 h, ho h, ht h]

/-- Witness for C1: a concrete configuration with an empty title yields a
configuration error and an empty trace. -/
theorem claim_C1_witness :
    (∃ e, (({ testCreator with Title := "" } : FullPullRequestCreator).Create
        testOracle).1 = .error e ∧ e.isConfigError = true) ∧
      (({ testCreator with Title := "" } : FullPullRequestCreator).Create
        testOracle).2 = [] :=
  claim_C1 testOracle { testCreator with Title := "" }
    (Or.inr (Or.inr (Or.inr (Or.inl rfl))))

/-- C3: every execution of the configuration-driven workflow performs the
repository-reachability check before any branch lookup or mutation — the
first event of every non-empty trace is the `repoExists` call — and when
the repository is absent (or the lookup fails) the workflow stops with that
single event: a precondition error for absence, the propagated lookup
error for inaccessibility. -/
theorem claim_C3 (ω : Oracle) (f : FullPullRequestCreator) :
    ((f.Create ω).2 = [] ∨
      ∃ res, ((f.Create ω).2).head? = some (.repoExists res)) ∧
    (f.configOK →
      (ω.repoExists = .ok false →
        (f.Create ω).1 = .error .repoNotFound ∧
        CreateErr.repoNotFound.isPreconditionError = true ∧
        (f.Create ω).2 = [.repoExists (.ok false)]) ∧
      (∀ e, ω.repoExists = .error e →
        (f.Create ω).1 = .error (.repoExistsError e) ∧
        (f.Create ω).2 = [.repoExists (.error e)])) := by
  constructor
  · unfold FullPullRequestCreator.Create
    repeat' split
    all_goals simp
  · rintro ⟨h1, h2, h3, h4, h5, h6, h7, h8⟩
    have hnr := NewRepo_ok_of h6 h7 h8
    constructor
    · intro hre
      unfold FullPullRequestCreator.Create
      rw [if_neg h1, if_neg h2, if_neg h3, if_neg h4, if_neg h5, hnr, hre]
      exact ⟨rfl, rfl, rfl⟩
    · intro e hre
      unfold FullPullRequestCreator.Create
      rw [if_neg h1, if_neg h2, if_neg h3, if_neg h4, if_neg h5, hnr, hre]
      exact ⟨rfl, rfl⟩

/-- Witness for C3: against a remote state in which the repository lookup
reports absence, the concrete configuration stops with the precondition
error after exactly the one repository-existence call. -/
theorem claim_C3_witness :
    (testCreator.Create { testOracle with repoExists := .ok false }).1
        = .error .repoNotFound ∧
    (testCreator.Create { testOracle with repoExists := .ok false }).2
        = [.repoExists (.ok false)] := by
  have h := (claim_C3 { testOracle with repoExists := .ok false } testCreator).2
    ⟨by decide, by decide, by decide, by decide, by decide, by decide, by decide,
      by decide⟩
  exact ⟨(h.1 rfl).1, (h.1 rfl).2.2⟩

/-- C2: in any execution in which the branch-existence check of the
configured base branch returns true — or that of the base branch returns
false and that of the head branch returns true — both workflow variants
stop with a precondition error, and the trace contains no empty-tree-commit
creation and no branch creation of any kind. -/
theorem claim_C2 (ω : Oracle) (r : repo) (f : FullPullRequestCreator)
    (fullRepoBranch PRTitle PRBody PRBaseBranch PRHeadBranch : String) :
    (ω.branchExists fullRepoBranch = .ok true →
      (ω.branchExists PRBaseBranch = .ok true ∨
        (ω.branchExists PRBaseBranch = .ok false ∧
          ω.branchExists PRHeadBranch = .ok true)) →
      ∃ e, (r.CreateFullPullRequest ω fullRepoBranch PRTitle PRBody PRBaseBranch
          PRHeadBranch).1 = .error e ∧ e.isPreconditionError = true ∧
        ∀ ev ∈ (r.CreateFullPullRequest ω fullRepoBranch PRTitle PRBody PRBaseBranch
            PRHeadBranch).2,
          ev.isEmptyTreeCommitCreation = false ∧ ev.isBranchCreation = false) ∧
    (f.configOK → ω.repoExists = .ok true →
      ω.branchExists f.FullRepoBranch = .ok true →
      (ω.branchExists f.BaseBranch = .ok true ∨
        (ω.branchExists f.BaseBranch = .ok false ∧
          ω.branchExists f.HeadBranch = .ok true)) →
      ∃ e, (f.Create ω).1 = .error e ∧ CreateErr.isPreconditionError e = true ∧
        ∀ ev ∈ (f.Create ω).2,
          ev.isEmptyTreeCommitCreation = false ∧ ev.isBranchCreation = false) := by
  constructor
  · intro hfull hbh
    unfold repo.CreateFullPullRequest
    rw [hfull]
    rcases hbh with hb | ⟨hb, hh⟩
    · rw [hb]
      refine ⟨.baseBranchAlreadyExists, rfl, rfl, ?_⟩
      intro ev hev
      simp at hev
      rcases hev with rfl | rfl <;> exact ⟨rfl, rfl⟩
    · rw [hb, hh]
      refine ⟨.headBranchAlreadyExists, rfl, rfl, ?_⟩
      intro ev hev
      simp at hev
      rcases hev with rfl | rfl | rfl <;> exact ⟨rfl, rfl⟩
  · rintro ⟨h1, h2, h3, h4, h5, h6, h7, h8⟩ hre hfull hbh
    have hnr := NewRepo_ok_of h6 h7 h8
    unfold FullPullRequestCreator.Create
    rw [if_neg h1, if_neg h2, if_neg h3, if_neg h4, if_neg h5, hnr, hre, hfull]
    rcases hbh with hb | ⟨hb, hh⟩
    · rw [hb]
      refine ⟨.baseBranchAlreadyExists, rfl, rfl, ?_⟩
      intro ev hev
      simp at hev
      rcases hev with rfl | rfl | rfl <;> exact ⟨rfl, rfl⟩
    · rw [hb, hh]
      refine ⟨.headBranchAlreadyExists, rfl, rfl, ?_⟩
      intro ev hev
      simp at hev
      rcases hev with rfl | rfl | rfl | rfl <;> exact ⟨rfl, rfl⟩

/-- Witness for C2: with `rev-base` already present remotely, the API-only
workflow stops with the base-branch precondition error and performs no
creation. -/
theorem claim_C2_witness :
    ∃ e, (testRepo.CreateFullPullRequest testOracleBaseTaken "main" "t" "b"
        "rev-base" "rev-head").1 = .error e ∧ e.isPreconditionError = true ∧
      ∀ ev ∈ (testRepo.CreateFullPullRequest testOracleBaseTaken "main" "t" "b"
          "rev-base" "rev-head").2,
        ev.isEmptyTreeCommitCreation = false ∧ ev.isBranchCreation = false :=
  (claim_C2 testOracleBaseTaken testRepo testCreator "main" "t" "b" "rev-base"
    "rev-head").1 rfl (Or.inl rfl)

/-- A successful `git branch` loop produces exactly one successful
`gitBranch` event per requested branch, all pointing at the same sha. -/
theorem CreateOrphanBranchesLoop_ok_trace (ω : Oracle) (sha : String) :
    ∀ (names : List String) (a : Unit) (trL : List Event),
      CreateOrphanBranchesLoop ω sha names = (.ok a, trL) →
      trL = names.map fun n => Event.gitBranch n sha (.ok ()) := by
  intro names
  induction names with
  | nil =>
    intro a trL h
    simp only [CreateOrphanBranchesLoop] at h
    simp [← (Prod.mk.injEq _ _ _ _).mp h |>.2]
  | cons n rest ih =>
    intro a trL h
    unfold CreateOrphanBranchesLoop at h
    split at h
    · exact absurd h (by simp)
    · obtain ⟨h1, h2⟩ := (Prod.mk.injEq _ _ _ _).mp h
      subst h2
      simp only [List.map_cons, List.cons.injEq, true_and]
      exact ih a (CreateOrphanBranchesLoop ω sha rest).2
        ((Prod.ext_iff).mpr ⟨h1, rfl⟩)

/-- A successful `CreateOrphanBranches` run clones, creates one non-empty
empty-tree commit sha, points every requested branch at that sha, and
pushes: the trace is exactly that sequence. -/
theorem CreateOrphanBranches_ok_trace (ω : Oracle) (r : repo)
    (names : List String) (a : Unit) (trO : List Event)
    (h : repo.CreateOrphanBranches ω r names = (.ok a, trO)) :
    ∃ sha, ω.gitCommitTree = .ok sha ∧ sha ≠ "" ∧
      trO = [.gitClone (repoString r) (.ok ()), .gitCommitTree (.ok sha)] ++
        (names.map fun n => Event.gitBranch n sha (.ok ())) ++
        [.gitPush names (.ok ())] := by
  unfold repo.CreateOrphanBranches at h
  by_cases he : names.isEmpty
  · rw [if_pos he] at h
    exact Except.noConfusion ((Prod.mk.injEq _ _ _ _).mp h).1
  rw [if_neg he] at h
  by_cases hc : names.contains ""
  · rw [if_pos hc] at h
    exact Except.noConfusion ((Prod.mk.injEq _ _ _ _).mp h).1
  rw [if_neg hc] at h
  rcases hm : ω.mkdirTemp with e | a0 <;> rw [hm] at h
  · exact Except.noConfusion ((Prod.mk.injEq _ _ _ _).mp h).1
  rcases hcl : ω.gitClone (repoString r) with e | a1 <;> rw [hcl] at h
  · exact Except.noConfusion ((Prod.mk.injEq _ _ _ _).mp h).1
  rcases hct : ω.gitCommitTree with e | sha <;> rw [hct] at h
  · exact Except.noConfusion ((Prod.mk.injEq _ _ _ _).mp h).1
  dsimp only at h
  by_cases hsha : sha = ""
  · rw [if_pos hsha] at h
    exact Except.noConfusion ((Prod.mk.injEq _ _ _ _).mp h).1
  rw [if_neg hsha] at h
  rcases hloop : CreateOrphanBranchesLoop ω sha names with ⟨res, trL⟩
  rw [hloop] at h
  cases res with
  | error e => exact Except.noConfusion ((Prod.mk.injEq _ _ _ _).mp h).1
  | ok au =>
    rcases hp : ω.gitPush names with e | a2 <;> rw [hp] at h
    · exact Except.noConfusion ((Prod.mk.injEq _ _ _ _).mp h).1
    obtain ⟨h1, h2⟩ := (Prod.mk.injEq _ _ _ _).mp h
    subst h2
    have htr := CreateOrphanBranchesLoop_ok_trace ω sha names au trL hloop
    exact ⟨sha, rfl, hsha, by rw [htr]⟩

/-- C4: in every successful execution of either workflow variant there is
exactly one empty-tree-commit creation, and the base branch and the head
branch are both created pointing at that identical commit handle — so the
two branches' commits are equal immediately after the branch creations. -/
theorem claim_C4 (ω : Oracle) (r : repo) (f : FullPullRequestCreator)
    (fullRepoBranch PRTitle PRBody PRBaseBranch PRHeadBranch : String) :
    (∀ (n : Int) (tr : List Event),
      r.CreateFullPullRequest ω fullRepoBranch PRTitle PRBody PRBaseBranch PRHeadBranch
          = (.ok n, tr) →
      ∃ H, commitCreations tr = [H] ∧
        branchCreations tr = [(PRBaseBranch, H), (PRHeadBranch, H)]) ∧
    (∀ (url : String) (tr : List Event),
      f.Create ω = (.ok url, tr) →
      ∃ H, gitCommitCreations tr = [H] ∧
        gitBranchCreations tr = [(f.BaseBranch, H), (f.HeadBranch, H)]) := by
  constructor
  · intro n tr h
    unfold repo.CreateFullPullRequest at h
    rcases hfb : ω.branchExists fullRepoBranch with e | b <;> rw [hfb] at h
    · exact Except.noConfusion ((Prod.mk.injEq _ _ _ _).mp h).1
    cases b
    · exact Except.noConfusion ((Prod.mk.injEq _ _ _ _).mp h).1
    rcases hbb : ω.branchExists PRBaseBranch with e | b2 <;> rw [hbb] at h
    · exact Except.noConfusion ((Prod.mk.injEq _ _ _ _).mp h).1
    cases b2 with
    | true => exact Except.noConfusion ((Prod.mk.injEq _ _ _ _).mp h).1
    | false =>
    rcases hhb : ω.branchExists PRHeadBranch with e | b3 <;> rw [hhb] at h
    · exact Except.noConfusion ((Prod.mk.injEq _ _ _ _).mp h).1
    cases b3 with
    | true => exact Except.noConfusion ((Prod.mk.injEq _ _ _ _).mp h).1
    | false =>
    rcases hec : ω.createEmptyTreeCommit with e | emptyCommit <;> rw [hec] at h
    · exact Except.noConfusion ((Prod.mk.injEq _ _ _ _).mp h).1
    dsimp only at h
    rcases hcb : ω.createBranch PRBaseBranch emptyCommit with e | a1 <;> rw [hcb] at h
    · exact Except.noConfusion ((Prod.mk.injEq _ _ _ _).mp h).1
    rcases hch : ω.createBranch PRHeadBranch emptyCommit with e | a2 <;> rw [hch] at h
    · exact Except.noConfusion ((Prod.mk.injEq _ _ _ _).mp h).1
    rcases hmg : ω.mergeBranch PRHeadBranch fullRepoBranch with e | a3 <;> rw [hmg] at h
    · exact Except.noConfusion ((Prod.mk.injEq _ _ _ _).mp h).1
    rcases hpr : ω.createPullRequestNum PRTitle PRBody PRBaseBranch PRHeadBranch
        with e | n0 <;> rw [hpr] at h
    · exact Except.noConfusion ((Prod.mk.injEq _ _ _ _).mp h).1
    obtain ⟨h1, h2⟩ := (Prod.mk.injEq _ _ _ _).mp h
    subst h2
    exact ⟨emptyCommit, by simp [commitCreations], by simp [branchCreations]⟩
  · intro url tr h
    unfold FullPullRequestCreator.Create at h
    by_cases h1 : f.FullRepoBranch = ""
    · rw [if_pos h1] at h
      exact Except.noConfusion ((Prod.mk.injEq _ _ _ _).mp h).1
    rw [if_neg h1] at h
    by_cases h2 : f.BaseBranch = ""
    · rw [if_pos h2] at h
      exact Except.noConfusion ((Prod.mk.injEq _ _ _ _).mp h).1
    rw [if_neg h2] at h
    by_cases h3 : f.HeadBranch = ""
    · rw [if_pos h3] at h
      exact Except.noConfusion ((Prod.mk.injEq _ _ _ _).mp h).1
    rw [if_neg h3] at h
    by_cases h4 : f.Title = ""
    · rw [if_pos h4] at h
      exact Except.noConfusion ((Prod.mk.injEq _ _ _ _).mp h).1
    rw [if_neg h4] at h
    by_cases h5 : f.Body = ""
    · rw [if_pos h5] at h
      exact Except.noConfusion ((Prod.mk.injEq _ _ _ _).mp h).1
    rw [if_neg h5] at h
    rcases hnr : NewRepo f.Repo f.Token with e | r0 <;> rw [hnr] at h
    · exact Except.noConfusion ((Prod.mk.injEq _ _ _ _).mp h).1
    dsimp only at h
    rcases hre : ω.repoExists with e | b <;> rw [hre] at h
    · exact Except.noConfusion ((Prod.mk.injEq _ _ _ _).mp h).1
    cases b
    · exact Except.noConfusion ((Prod.mk.injEq _ _ _ _).mp h).1
    rcases hfb : ω.branchExists f.FullRepoBranch with e | b2 <;> rw [hfb] at h
    · exact Except.noConfusion ((Prod.mk.injEq _ _ _ _).mp h).1
    cases b2
    · exact Except.noConfusion ((Prod.mk.injEq _ _ _ _).mp h).1
    rcases hbb : ω.branchExists f.BaseBranch with e | b3 <;> rw [hbb] at h
    · exact Except.noConfusion ((Prod.mk.injEq _ _ _ _).mp h).1
    cases b3 with
    | true => exact Except.noConfusion ((Prod.mk.injEq _ _ _ _).mp h).1
    | false =>
    rcases hhb : ω.branchExists f.HeadBranch with e | b4 <;> rw [hhb] at h
    · exact Except.noConfusion ((Prod.mk.injEq _ _ _ _).mp h).1
    cases b4 with
    | true => exact Except.noConfusion ((Prod.mk.injEq _ _ _ _).mp h).1
    | false =>
    rcases ho : repo.CreateOrphanBranches ω r0 [f.BaseBranch, f.HeadBranch]
        with ⟨res, trO⟩
    rw [ho] at h
    cases res with
    | error e => exact Except.noConfusion ((Prod.mk.injEq _ _ _ _).mp h).1
    | ok a0 =>
    dsimp only at h
    rcases hmg : ω.mergeBranch f.HeadBranch f.FullRepoBranch with e | a1 <;> rw [hmg] at h
    · exact Except.noConfusion ((Prod.mk.injEq _ _ _ _).mp h).1
    rcases hpr : ω.createPullRequestURL f.Title f.Body f.BaseBranch f.HeadBranch
        with e | url0 <;> rw [hpr] at h
    · exact Except.noConfusion ((Prod.mk.injEq _ _ _ _).mp h).1
    obtain ⟨h1, h2⟩ := (Prod.mk.injEq _ _ _ _).mp h
    subst h2
    obtain ⟨sha, hct, hsha, htrO⟩ := CreateOrphanBranches_ok_trace ω r0 _ a0 trO ho
    subst htrO
    exact ⟨sha, by simp [gitCommitCreations], by simp [gitBranchCreations]⟩

/-- Witness for C4: the successful concrete run creates one empty-tree
commit and points both branches at it. -/
theorem claim_C4_witness :
    ∃ H, commitCreations
        [.branchExists "main" (.ok true), .branchExists "rev-base" (.ok false),
          .branchExists "rev-head" (.ok false),
          .createEmptyTreeCommit (.ok "828e2e0952cc78cf7562b8a36d372ae2ea31f266"),
          .createBranch "rev-base" "828e2e0952cc78cf7562b8a36d372ae2ea31f266" (.ok ()),
          .createBranch "rev-head" "828e2e0952cc78cf7562b8a36d372ae2ea31f266" (.ok ()),
          .mergeBranch "rev-head" "main" (.ok ()),
          .createPullRequestNum "t" "b" "rev-base" "rev-head" (.ok 7)] = [H] ∧
      branchCreations
        [.branchExists "main" (.ok true), .branchExists "rev-base" (.ok false),
          .branchExists "rev-head" (.ok false),
          .createEmptyTreeCommit (.ok "828e2e0952cc78cf7562b8a36d372ae2ea31f266"),
          .createBranch "rev-base" "828e2e0952cc78cf7562b8a36d372ae2ea31f266" (.ok ()),
          .createBranch "rev-head" "828e2e0952cc78cf7562b8a36d372ae2ea31f266" (.ok ()),
          .mergeBranch "rev-head" "main" (.ok ()),
          .createPullRequestNum "t" "b" "rev-base" "rev-head" (.ok 7)]
        = [("rev-base", H), ("rev-head", H)] :=
  (claim_C4 testOracle testRepo testCreator "main" "t" "b" "rev-base" "rev-head").1 7
    [.branchExists "main" (.ok true), .branchExists "rev-base" (.ok false),
      .branchExists "rev-head" (.ok false),
      .createEmptyTreeCommit (.ok "828e2e0952cc78cf7562b8a36d372ae2ea31f266"),
      .createBranch "rev-base" "828e2e0952cc78cf7562b8a36d372ae2ea31f266" (.ok ()),
      .createBranch "rev-head" "828e2e0952cc78cf7562b8a36d372ae2ea31f266" (.ok ()),
      .mergeBranch "rev-head" "main" (.ok ()),
      .createPullRequestNum "t" "b" "rev-base" "rev-head" (.ok 7)] (by rfl)

/-- C5: in every successful execution of either workflow variant the merge
is invoked with the head branch as the merge target and the source branch
as the branch merged in, and the pull request — comparing the head branch
against the base branch with the configured title and body — is created
strictly after the merge: the merge-and-pull-request projection of the
trace is exactly the merge event followed by the pull-request event. -/
theorem claim_C5 (ω : Oracle) (r : repo) (f : FullPullRequestCreator)
    (fullRepoBranch PRTitle PRBody PRBaseBranch PRHeadBranch : String) :
    (∀ (n : Int) (tr : List Event),
      r.CreateFullPullRequest ω fullRepoBranch PRTitle PRBody PRBaseBranch PRHeadBranch
          = (.ok n, tr) →
      mergePRProjection tr =
        [.mergeBranch PRHeadBranch fullRepoBranch (.ok ()),
          .createPullRequestNum PRTitle PRBody PRBaseBranch PRHeadBranch (.ok n)]) ∧
    (∀ (url : String) (tr : List Event),
      f.Create ω = (.ok url, tr) →
      mergePRProjection tr =
        [.mergeBranch f.HeadBranch f.FullRepoBranch (.ok ()),
          .createPullRequestURL f.Title f.Body f.BaseBranch f.HeadBranch (.ok url)]) := by
  constructor
  · intro n tr h
    unfold repo.CreateFullPullRequest at h
    rcases hfb : ω.branchExists fullRepoBranch with e | b <;> rw [hfb] at h
    · exact Except.noConfusion ((Prod.mk.injEq _ _ _ _).mp h).1
    cases b
    · exact Except.noConfusion ((Prod.mk.injEq _ _ _ _).mp h).1
    rcases hbb : ω.branchExists PRBaseBranch with e | b2 <;> rw [hbb] at h
    · exact Except.noConfusion ((Prod.mk.injEq _ _ _ _).mp h).1
    cases b2 with
    | true => exact Except.noConfusion ((Prod.mk.injEq _ _ _ _).mp h).1
    | false =>
    rcases hhb : ω.branchExists PRHeadBranch with e | b3 <;> rw [hhb] at h
    · exact Except.noConfusion ((Prod.mk.injEq _ _ _ _).mp h).1
    cases b3 with
    | true => exact Except.noConfusion ((Prod.mk.injEq _ _ _ _).mp h).1
    | false =>
    rcases hec : ω.createEmptyTreeCommit with e | emptyCommit <;> rw [hec] at h
    · exact Except.noConfusion ((Prod.mk.injEq _ _ _ _).mp h).1
    dsimp only at h
    rcases hcb : ω.createBranch PRBaseBranch emptyCommit with e | a1 <;> rw [hcb] at h
    · exact Except.noConfusion ((Prod.mk.injEq _ _ _ _).mp h).1
    rcases hch : ω.createBranch PRHeadBranch emptyCommit with e | a2 <;> rw [hch] at h
    · exact Except.noConfusion ((Prod.mk.injEq _ _ _ _).mp h).1
    rcases hmg : ω.mergeBranch PRHeadBranch fullRepoBranch with e | a3 <;> rw [hmg] at h
    · exact Except.noConfusion ((Prod.mk.injEq _ _ _ _).mp h).1
    rcases hpr : ω.createPullRequestNum PRTitle PRBody PRBaseBranch PRHeadBranch
        with e | n0 <;> rw [hpr] at h
    · exact Except.noConfusion ((Prod.mk.injEq _ _ _ _).mp h).1
    obtain ⟨h1, h2⟩ := (Prod.mk.injEq _ _ _ _).mp h
    obtain rfl : n0 = n := by simpa using h1
    subst h2
    simp [mergePRProjection, Event.isMergeOrPR]
  · intro url tr h
    unfold FullPullRequestCreator.Create at h
    by_cases h1 : f.FullRepoBranch = ""
    · rw [if_pos h1] at h
      exact Except.noConfusion ((Prod.mk.injEq _ _ _ _).mp h).1
    rw [if_neg h1] at h
    by_cases h2 : f.BaseBranch = ""
    · rw [if_pos h2] at h
      exact Except.noConfusion ((Prod.mk.injEq _ _ _ _).mp h).1
    rw [if_neg h2] at h
    by_cases h3 : f.HeadBranch = ""
    · rw [if_pos h3] at h
      exact Except.noConfusion ((Prod.mk.injEq _ _ _ _).mp h).1
    rw [if_neg h3] at h
    by_cases h4 : f.Title = ""
    · rw [if_pos h4] at h
      exact Except.noConfusion ((Prod.mk.injEq _ _ _ _).mp h).1
    rw [if_neg h4] at h
    by_cases h5 : f.Body = ""
    · rw [if_pos h5] at h
      exact Except.noConfusion ((Prod.mk.injEq _ _ _ _).mp h).1
    rw [if_neg h5] at h
    rcases hnr : NewRepo f.Repo f.Token with e | r0 <;> rw [hnr] at h
    · exact Except.noConfusion ((Prod.mk.injEq _ _ _ _).mp h).1
    dsimp only at h
    rcases hre : ω.repoExists with e | b <;> rw [hre] at h
    · exact Except.noConfusion ((Prod.mk.injEq _ _ _ _).mp h).1
    cases b
    · exact Except.noConfusion ((Prod.mk.injEq _ _ _ _).mp h).1
    rcases hfb : ω.branchExists f.FullRepoBranch with e | b2 <;> rw [hfb] at h
    · exact Except.noConfusion ((Prod.mk.injEq _ _ _ _).mp h).1
    cases b2
    · exact Except.noConfusion ((Prod.mk.injEq _ _ _ _).mp h).1
    rcases hbb : ω.branchExists f.BaseBranch with e | b3 <;> rw [hbb] at h
    · exact Except.noConfusion ((Prod.mk.injEq _ _ _ _).mp h).1
    cases b3 with
    | true => exact Except.noConfusion ((Prod.mk.injEq _ _ _ _).mp h).1
    | false =>
    rcases hhb : ω.branchExists f.HeadBranch with e | b4 <;> rw [hhb] at h
    · exact Except.noConfusion ((Prod.mk.injEq _ _ _ _).mp h).1
    cases b4 with
    | true => exact Except.noConfusion ((Prod.mk.injEq _ _ _ _).mp h).1
    | false =>
    rcases ho : repo.CreateOrphanBranches ω r0 [f.BaseBranch, f.HeadBranch]
        with ⟨res, trO⟩
    rw [ho] at h
    cases res with
    | error e => exact Except.noConfusion ((Prod.mk.injEq _ _ _ _).mp h).1
    | ok a0 =>
    dsimp only at h
    rcases hmg : ω.mergeBranch f.HeadBranch f.FullRepoBranch with e | a1 <;> rw [hmg] at h
    · exact Except.noConfusion ((Prod.mk.injEq _ _ _ _).mp h).1
    rcases hpr : ω.createPullRequestURL f.Title f.Body f.BaseBranch f.HeadBranch
        with e | url0 <;> rw [hpr] at h
    · exact Except.noConfusion ((Prod.mk.injEq _ _ _ _).mp h).1
    obtain ⟨h1, h2⟩ := (Prod.mk.injEq _ _ _ _).mp h
    obtain rfl : url0 = url := by simpa using h1
    subst h2
    obtain ⟨sha, hct, hsha, htrO⟩ := CreateOrphanBranches_ok_trace ω r0 _ a0 trO ho
    subst htrO
    simp [mergePRProjection, Event.isMergeOrPR]

/-- Witness for C5: the merge-then-pull-request projection of the concrete
successful run. -/
theorem claim_C5_witness :
    mergePRProjection
        [.branchExists "main" (.ok true), .branchExists "rev-base" (.ok false),
          .branchExists "rev-head" (.ok false),
          .createEmptyTreeCommit (.ok "828e2e0952cc78cf7562b8a36d372ae2ea31f266"),
          .createBranch "rev-base" "828e2e0952cc78cf7562b8a36d372ae2ea31f266" (.ok ()),
          .createBranch "rev-head" "828e2e0952cc78cf7562b8a36d372ae2ea31f266" (.ok ()),
          .mergeBranch "rev-head" "main" (.ok ()),
          .createPullRequestNum "t" "b" "rev-base" "rev-head" (.ok 7)] =
      [.mergeBranch "rev-head" "main" (.ok ()),
        .createPullRequestNum "t" "b" "rev-base" "rev-head" (.ok 7)] :=
  (claim_C5 testOracle testRepo testCreator "main" "t" "b" "rev-base" "rev-head").1 7
    [.branchExists "main" (.ok true), .branchExists "rev-base" (.ok false),
      .branchExists "rev-head" (.ok false),
      .createEmptyTreeCommit (.ok "828e2e0952cc78cf7562b8a36d372ae2ea31f266"),
      .createBranch "rev-base" "828e2e0952cc78cf7562b8a36d372ae2ea31f266" (.ok ()),
      .createBranch "rev-head" "828e2e0952cc78cf7562b8a36d372ae2ea31f266" (.ok ()),
      .mergeBranch "rev-head" "main" (.ok ()),
      .createPullRequestNum "t" "b" "rev-base" "rev-head" (.ok 7)] (by rfl)

/-- The `git branch` loop performs no cleanup operation. -/
theorem CreateOrphanBranchesLoop_cleanupFree (ω : Oracle) (sha : String) :
    ∀ (names : List String), ∀ ev ∈ (CreateOrphanBranchesLoop ω sha names).2,
      ev.isCleanup = false := by
  intro names
  induction names with
  | nil => simp [CreateOrphanBranchesLoop]
  | cons n rest ih =>
    intro ev hev
    unfold CreateOrphanBranchesLoop at hev
    rcases hg : ω.gitBranch n sha with e | a <;> rw [hg] at hev
    · simp at hev
      subst hev
      rfl
    · simp at hev
      rcases hev with rfl | hev
      · rfl
      · exact ih ev hev

/-- The function `CreateOrphanBranches` performs no cleanup operation in any
execution. -/
theorem CreateOrphanBranches_cleanupFree (ω : Oracle) (r : repo) (names : List String) :
    ∀ ev ∈ (repo.CreateOrphanBranches ω r names).2, ev.isCleanup = false := by
  intro ev hev
  unfold repo.CreateOrphanBranches at hev
  by_cases he : names.isEmpty
  · rw [if_pos he] at hev
    simp at hev
  rw [if_neg he] at hev
  by_cases hc : names.contains ""
  · rw [if_pos hc] at hev
    simp at hev
  rw [if_neg hc] at hev
  rcases hm : ω.mkdirTemp with e | a0 <;> rw [hm] at hev
  · simp at hev
  rcases hcl : ω.gitClone (repoString r) with e | a1 <;> rw [hcl] at hev
  · simp at hev
    subst hev
    rfl
  rcases hct : ω.gitCommitTree with e | sha <;> rw [hct] at hev
  · simp at hev
    rcases hev with rfl | rfl <;> rfl
  dsimp only at hev
  by_cases hsha : sha = ""
  · rw [if_pos hsha] at hev
    simp at hev
    rcases hev with rfl | rfl <;> rfl
  rw [if_neg hsha] at hev
  rcases hloop : CreateOrphanBranchesLoop ω sha names with ⟨res, trL⟩
  rw [hloop] at hev
  have htrL : ∀ e2 ∈ trL, Event.isCleanup e2 = false := by
    intro e2 he2
    refine CreateOrphanBranchesLoop_cleanupFree ω sha names e2 ?_
    rw [hloop]
    exact he2
  cases res with
  | error e =>
    simp at hev
    rcases hev with rfl | rfl | hev
    · rfl
    · rfl
    · exact htrL ev hev
  | ok a2 =>
    dsimp only at hev
    rcases hp : ω.gitPush names with e | a3 <;> rw [hp] at hev <;> simp at hev <;>
      rcases hev with rfl | rfl | hev | rfl
    · rfl
    · rfl
    · exact htrL ev hev
    · rfl
    · rfl
    · rfl
    · exact htrL ev hev
    · rfl

/-- C7: neither workflow variant ever invokes the branch-deletion or
pull-request-closing operations — in any execution, successful or failed —
and every branch successfully created by the API-only workflow is still
present in the remote branch map replayed from the full trace (no
compensation/rollback logic exists). -/
theorem claim_C7 (ω : Oracle) (r : repo) (f : FullPullRequestCreator)
    (fullRepoBranch PRTitle PRBody PRBaseBranch PRHeadBranch : String) :
    (∀ ev ∈ (r.CreateFullPullRequest ω fullRepoBranch PRTitle PRBody PRBaseBranch
        PRHeadBranch).2, ev.isCleanup = false) ∧
    (∀ ev ∈ (f.Create ω).2, ev.isCleanup = false) ∧
    (∀ p ∈ branchCreations (r.CreateFullPullRequest ω fullRepoBranch PRTitle PRBody
        PRBaseBranch PRHeadBranch).2,
      p ∈ runBranches (r.CreateFullPullRequest ω fullRepoBranch PRTitle PRBody
        PRBaseBranch PRHeadBranch).2) := by
  refine ⟨?_, ?_, ?_⟩
  · unfold repo.CreateFullPullRequest
    repeat' split
    all_goals simp [Event.isCleanup]
  · intro ev hev
    unfold FullPullRequestCreator.Create at hev
    by_cases h1 : f.FullRepoBranch = ""
    · rw [if_pos h1] at hev
      simp at hev
    rw [if_neg h1] at hev
    by_cases h2 : f.BaseBranch = ""
    · rw [if_pos h2] at hev
      simp at hev
    rw [if_neg h2] at hev
    by_cases h3 : f.HeadBranch = ""
    · rw [if_pos h3] at hev
      simp at hev
    rw [if_neg h3] at hev
    by_cases h4 : f.Title = ""
    · rw [if_pos h4] at hev
      simp at hev
    rw [if_neg h4] at hev
    by_cases h5 : f.Body = ""
    · rw [if_pos h5] at hev
      simp at hev
    rw [if_neg h5] at hev
    rcases hnr : NewRepo f.Repo f.Token with e | r0 <;> rw [hnr] at hev
    · simp at hev
    dsimp only at hev
    rcases hre : ω.repoExists with e | b <;> rw [hre] at hev
    · simp at hev
      subst hev
      rfl
    cases b
    · simp at hev
      subst hev
      rfl
    rcases hfb : ω.branchExists f.FullRepoBranch with e | b2 <;> rw [hfb] at hev
    · simp at hev
      rcases hev with rfl | rfl <;> rfl
    cases b2
    · simp at hev
      rcases hev with rfl | rfl <;> rfl
    rcases hbb : ω.branchExists f.BaseBranch with e | b3 <;> rw [hbb] at hev
    · simp at hev
      rcases hev with rfl | rfl | rfl <;> rfl
    cases b3 with
    | true =>
      simp at hev
      rcases hev with rfl | rfl | rfl <;> rfl
    | false =>
    rcases hhb : ω.branchExists f.HeadBranch with e | b4 <;> rw [hhb] at hev
    · simp at hev
      rcases hev with rfl | rfl | rfl | rfl <;> rfl
    cases b4 with
    | true =>
      simp at hev
      rcases hev with rfl | rfl | rfl | rfl <;> rfl
    | false =>
    rcases ho : repo.CreateOrphanBranches ω r0 [f.BaseBranch, f.HeadBranch]
        with ⟨res, trO⟩
    rw [ho] at hev
    have htrO : ∀ e2 ∈ trO, Event.isCleanup e2 = false := by
      intro e2 he2
      refine CreateOrphanBranches_cleanupFree ω r0 [f.BaseBranch, f.HeadBranch] e2 ?_
      rw [ho]
      exact he2
    cases res with
    | error e =>
      simp at hev
      rcases hev with rfl | rfl | rfl | rfl | hev
      · rfl
      · rfl
      · rfl
      · rfl
      · exact htrO ev hev
    | ok a0 =>
    dsimp only at hev
    rcases hmg : ω.mergeBranch f.HeadBranch f.FullRepoBranch with e | a1 <;>
      rw [hmg] at hev
    · simp at hev
      rcases hev with rfl | rfl | rfl | rfl | hev | rfl
      · rfl
      · rfl
      · rfl
      · rfl
      · exact htrO ev hev
      · rfl
    rcases hpr : ω.createPullRequestURL f.Title f.Body f.BaseBranch f.HeadBranch
        with e | url0 <;> rw [hpr] at hev <;> simp at hev <;>
      rcases hev with rfl | rfl | rfl | rfl | hev | rfl | rfl
    · rfl
    · rfl
    · rfl
    · rfl
    · exact htrO ev hev
    · rfl
    · rfl
    · rfl
    · rfl
    · rfl
    · rfl
    · exact htrO ev hev
    · rfl
    · rfl
  · unfold repo.CreateFullPullRequest
    repeat' split
    all_goals simp [branchCreations, runBranches, applyEvent]

end PRMe
